import Mathlib

/-!
# Event identifier registry of gnbsim (`common/events.go`)

A shallow embedding of the Go package `common`: the `EventType` constants, the
name table `evtStrMap` and the resolver `GetEvtString`, followed by the
properties of the identifier space that are established about them.

Modelling conventions

* `EventType` is Go's `uint32`.  Every value below is a compile-time constant
  expression; Go rejects a typed constant that overflows its type, so the
  constants are natural numbers and `eventType_lt` records that each fits in
  32 bits.
* Inside a parenthesised `const` block, `iota` is the index of the line in
  the block (the blank identifier `_` takes an index as well) and a line with
  no expression repeats the most recent one.  Each constant is written with
  its expression and its own `iota`; `evalConstBlock` recomputes every block
  from its lines and the `*_block_eval` lemmas check the two against each
  other.
* `logger.AppLog.Fatalln` logs its arguments and ends the process.  The
  resolver therefore returns `Except FatalLog String`, the error carrying the
  arguments handed to the logger.
-/

namespace common

/-- Go: `type EventType uint32`. -/
abbrev EventType := Nat

/-! ## Channel bases (events.go, lines 13-24) -/

def UU_EVENT : EventType := 0x1000000
def N1_EVENT : EventType := 0x2000000
def N2_EVENT : EventType := 0x3000000
def N3_EVENT : EventType := 0x4000000
def PROFILE_SIMUE_EVENT : EventType := 0x5000000
def SIMUE_REALUE_EVENT : EventType := 0x6000000
def COMMON_EVENT : EventType := 0x7000000

/-! ## Common events (lines 26-30): `COMMON_EVENT + 1 + iota` -/

def INIT_EVENT : EventType := COMMON_EVENT + 1 + 0
def QUIT_EVENT : EventType := COMMON_EVENT + 1 + 1
def ERROR_EVENT : EventType := COMMON_EVENT + 1 + 2

/-! ## Events between Profile and SimUe (lines 33-37): `PROFILE_SIMUE_EVENT + 1 + iota` -/

def PROFILE_START_EVENT : EventType := PROFILE_SIMUE_EVENT + 1 + 0
def PROFILE_PASS_EVENT : EventType := PROFILE_SIMUE_EVENT + 1 + 1
def PROFILE_FAIL_EVENT : EventType := PROFILE_SIMUE_EVENT + 1 + 2

/-! ## Events between SimUe and RealUE (lines 40-44): `SIMUE_REALUE_EVENT + 1 + iota` -/

def DATA_PKT_GEN_REQUEST_EVENT : EventType := SIMUE_REALUE_EVENT + 1 + 0
def DATA_PKT_GEN_SUCCESS_EVENT : EventType := SIMUE_REALUE_EVENT + 1 + 1
def DATA_PKT_GEN_FAILURE_EVENT : EventType := SIMUE_REALUE_EVENT + 1 + 2

/-! ## Events between UE and GNodeB (lines 47-69): `UU_EVENT + 1 + iota` -/

def CONNECTION_REQUEST_EVENT : EventType := UU_EVENT + 1 + 0
def CONNECTION_RELEASE_REQUEST_EVENT : EventType := UU_EVENT + 1 + 1
def UL_INFO_TRANSFER_EVENT : EventType := UU_EVENT + 1 + 2
def DL_INFO_TRANSFER_EVENT : EventType := UU_EVENT + 1 + 3
def UL_UE_DATA_TRANSFER_EVENT : EventType := UU_EVENT + 1 + 4
def DL_UE_DATA_TRANSFER_EVENT : EventType := UU_EVENT + 1 + 5
def END_MARKER_EVENT : EventType := UU_EVENT + 1 + 6
def DATA_BEARER_SETUP_REQUEST_EVENT : EventType := UU_EVENT + 1 + 7
def DATA_BEARER_SETUP_RESPONSE_EVENT : EventType := UU_EVENT + 1 + 8
def CTX_RELEASE_ACKNOWLEDGEMENT_EVENT : EventType := UU_EVENT + 1 + 9
def TRIGGER_AN_RELEASE_EVENT : EventType := UU_EVENT + 1 + 10

/-! ## Events between UE and AMF (N1): sub-range bases (lines 76-77) -/

def UE_5GS_MOBILITY_MANAGEMENT_EVENTS : EventType := N1_EVENT + 64
def UE_5GS_SESSION_MANAGEMENT_EVENTS : EventType := N1_EVENT + 192

/-! ## 5GS Mobility Management events (lines 80-112)

Line 81 gives `iota = 0` to the blank identifier.  The expression is replaced
on lines 92 (`+ 3 + iota`), 96 (`+ 10 + iota`) and 107 (`+ 14 + iota`). -/

def REG_REQUEST_EVENT : EventType := UE_5GS_MOBILITY_MANAGEMENT_EVENTS + 1
def REG_ACCEPT_EVENT : EventType := UE_5GS_MOBILITY_MANAGEMENT_EVENTS + 2
def REG_COMPLETE_EVENT : EventType := UE_5GS_MOBILITY_MANAGEMENT_EVENTS + 3
def REG_REJECT_EVENT : EventType := UE_5GS_MOBILITY_MANAGEMENT_EVENTS + 4
def DEREG_REQUEST_UE_ORIG_EVENT : EventType := UE_5GS_MOBILITY_MANAGEMENT_EVENTS + 5
def DEREG_ACCEPT_UE_ORIG_EVENT : EventType := UE_5GS_MOBILITY_MANAGEMENT_EVENTS + 6
def DEREG_REQUEST_UE_TERM_EVENT : EventType := UE_5GS_MOBILITY_MANAGEMENT_EVENTS + 7
def DEREG_ACCEPT_UE_TERM_EVENT : EventType := UE_5GS_MOBILITY_MANAGEMENT_EVENTS + 8
def SERVICE_REQUEST_EVENT : EventType := UE_5GS_MOBILITY_MANAGEMENT_EVENTS + 3 + 9
def SERVICE_REJECT_EVENT : EventType := UE_5GS_MOBILITY_MANAGEMENT_EVENTS + 3 + 10
def SERVICE_ACCEPT_EVENT : EventType := UE_5GS_MOBILITY_MANAGEMENT_EVENTS + 3 + 11
def AUTH_REQUEST_EVENT : EventType := UE_5GS_MOBILITY_MANAGEMENT_EVENTS + 10 + 12
def AUTH_RESPONSE_EVENT : EventType := UE_5GS_MOBILITY_MANAGEMENT_EVENTS + 10 + 13
def AUTH_REJECT_EVENT : EventType := UE_5GS_MOBILITY_MANAGEMENT_EVENTS + 10 + 14
def AUTH_FAILURE_EVENT : EventType := UE_5GS_MOBILITY_MANAGEMENT_EVENTS + 10 + 15
def AUTH_RESULT_EVENT : EventType := UE_5GS_MOBILITY_MANAGEMENT_EVENTS + 10 + 16
def ID_REQUEST_EVENT : EventType := UE_5GS_MOBILITY_MANAGEMENT_EVENTS + 10 + 17
def ID_RESPONSE_EVENT : EventType := UE_5GS_MOBILITY_MANAGEMENT_EVENTS + 10 + 18
def SEC_MOD_COMMAND_EVENT : EventType := UE_5GS_MOBILITY_MANAGEMENT_EVENTS + 10 + 19
def SEC_MOD_COMPLETE_EVENT : EventType := UE_5GS_MOBILITY_MANAGEMENT_EVENTS + 10 + 20
def SEC_MOD_REJECT_EVENT : EventType := UE_5GS_MOBILITY_MANAGEMENT_EVENTS + 10 + 21
def FIVE_GMM_STATUS_EVENT : EventType := UE_5GS_MOBILITY_MANAGEMENT_EVENTS + 14 + 22
def NOTIFICATION_EVENT : EventType := UE_5GS_MOBILITY_MANAGEMENT_EVENTS + 14 + 23
def NOTIFICATION_RESPONSE_EVENT : EventType := UE_5GS_MOBILITY_MANAGEMENT_EVENTS + 14 + 24
def UL_NAS_TRANSPORT_EVENT : EventType := UE_5GS_MOBILITY_MANAGEMENT_EVENTS + 14 + 25
def DL_NAS_TRANSPORT_EVENT : EventType := UE_5GS_MOBILITY_MANAGEMENT_EVENTS + 14 + 26

/-! ## 5GS Session Management events (lines 115-138)

Line 116 gives `iota = 0` to the blank identifier.  The expression is replaced
on lines 122 (`+ 1 + iota`), 126 (`+ 2 + iota`), 132 (`+ 5 + iota`) and
137 (`+ 6 + iota`). -/

def PDU_SESS_EST_REQUEST_EVENT : EventType := UE_5GS_SESSION_MANAGEMENT_EVENTS + 1
def PDU_SESS_EST_ACCEPT_EVENT : EventType := UE_5GS_SESSION_MANAGEMENT_EVENTS + 2
def PDU_SESS_EST_REJECT_EVENT : EventType := UE_5GS_SESSION_MANAGEMENT_EVENTS + 3
def PDU_SESS_AUTH_COMMAND_EVENT : EventType := UE_5GS_SESSION_MANAGEMENT_EVENTS + 1 + 4
def PDU_SESS_AUTH_COMPLETE_EVENT : EventType := UE_5GS_SESSION_MANAGEMENT_EVENTS + 1 + 5
def PDU_SESS_AUTH_RESULT_EVENT : EventType := UE_5GS_SESSION_MANAGEMENT_EVENTS + 1 + 6
def PDU_SESS_MOD_REQUEST_EVENT : EventType := UE_5GS_SESSION_MANAGEMENT_EVENTS + 2 + 7
def PDU_SESS_MOD_REJECT_EVENT : EventType := UE_5GS_SESSION_MANAGEMENT_EVENTS + 2 + 8
def PDU_SESS_MOD_COMMAND_EVENT : EventType := UE_5GS_SESSION_MANAGEMENT_EVENTS + 2 + 9
def PDU_SESS_MOD_COMPLETE_EVENT : EventType := UE_5GS_SESSION_MANAGEMENT_EVENTS + 2 + 10
def PDU_SESS_MOD_CMD_REJECT_EVENT : EventType := UE_5GS_SESSION_MANAGEMENT_EVENTS + 2 + 11
def PDU_SESS_REL_REQUEST_EVENT : EventType := UE_5GS_SESSION_MANAGEMENT_EVENTS + 5 + 12
def PDU_SESS_REL_REJECT_EVENT : EventType := UE_5GS_SESSION_MANAGEMENT_EVENTS + 5 + 13
def PDU_SESS_REL_COMMAND_EVENT : EventType := UE_5GS_SESSION_MANAGEMENT_EVENTS + 5 + 14
def PDU_SESS_REL_COMPLETE_EVENT : EventType := UE_5GS_SESSION_MANAGEMENT_EVENTS + 5 + 15
def FIVEGSM_STATUS_EVENT : EventType := UE_5GS_SESSION_MANAGEMENT_EVENTS + 6 + 16

/-! ## Events between GNodeB and AMF (lines 141-146): `N2_EVENT + 1 + iota` -/

def DOWNLINK_NAS_TRANSPORT_EVENT : EventType := N2_EVENT + 1 + 0
def INITIAL_CTX_SETUP_REQUEST_EVENT : EventType := N2_EVENT + 1 + 1
def PDU_SESS_RESOURCE_SETUP_REQUEST_EVENT : EventType := N2_EVENT + 1 + 2
def UE_CTX_RELEASE_COMMAND_EVENT : EventType := N2_EVENT + 1 + 3

/-! ## Events between GNodeB and UPF (lines 149-151): `N3_EVENT + 1 + iota` -/

def DL_UE_DATA_TRANSPORT_EVENT : EventType := N3_EVENT + 1 + 0

/-! ## Const blocks and `iota`

A line of a `const` block either carries an expression in `iota` (`some e`)
or repeats the expression of the closest earlier line that has one (`none`).
`iota` starts at 0 and grows by one per line. -/

abbrev ConstLine := Option (Nat → EventType)

/-- Values of the lines of a block from line number `iota` on, `cur` being the
expression in force. -/
def evalConstLines (cur : Nat → EventType) (iota : Nat) : List ConstLine → List EventType
  | [] => []
  | some e :: rest => e iota :: evalConstLines e (iota + 1) rest
  | none :: rest => cur iota :: evalConstLines cur (iota + 1) rest

/-- Values of all lines of a block (Go requires the first line to carry an
expression, so the initial expression is never used). -/
def evalConstBlock (lines : List ConstLine) : List EventType :=
  evalConstLines (fun _ => 0) 0 lines

/-- Lines 27-29. -/
def commonLines : List ConstLine :=
  [some (fun iota => COMMON_EVENT + 1 + iota), none, none]

/-- Lines 34-36. -/
def profileSimueLines : List ConstLine :=
  [some (fun iota => PROFILE_SIMUE_EVENT + 1 + iota), none, none]

/-- Lines 41-43. -/
def simueRealueLines : List ConstLine :=
  [some (fun iota => SIMUE_REALUE_EVENT + 1 + iota), none, none]

/-- Lines 48-68. -/
def uuLines : List ConstLine :=
  [some (fun iota => UU_EVENT + 1 + iota), none, none, none, none, none, none, none, none,
   none, none]

/-- Lines 81-111; the first line is the blank identifier. -/
def mobilityLines : List ConstLine :=
  [some (fun iota => UE_5GS_MOBILITY_MANAGEMENT_EVENTS + iota),
   none, none, none, none, none, none, none, none,
   some (fun iota => UE_5GS_MOBILITY_MANAGEMENT_EVENTS + 3 + iota), none, none,
   some (fun iota => UE_5GS_MOBILITY_MANAGEMENT_EVENTS + 10 + iota),
   none, none, none, none, none, none, none, none, none,
   some (fun iota => UE_5GS_MOBILITY_MANAGEMENT_EVENTS + 14 + iota), none, none, none, none]

/-- Lines 116-137; the first line is the blank identifier. -/
def sessionLines : List ConstLine :=
  [some (fun iota => UE_5GS_SESSION_MANAGEMENT_EVENTS + iota), none, none, none,
   some (fun iota => UE_5GS_SESSION_MANAGEMENT_EVENTS + 1 + iota), none, none,
   some (fun iota => UE_5GS_SESSION_MANAGEMENT_EVENTS + 2 + iota), none, none, none, none,
   some (fun iota => UE_5GS_SESSION_MANAGEMENT_EVENTS + 5 + iota), none, none, none,
   some (fun iota => UE_5GS_SESSION_MANAGEMENT_EVENTS + 6 + iota)]

/-- Lines 142-145. -/
def n2Lines : List ConstLine :=
  [some (fun iota => N2_EVENT + 1 + iota), none, none, none]

/-- Line 150. -/
def n3Lines : List ConstLine :=
  [some (fun iota => N3_EVENT + 1 + iota)]

/-! ## The named constants of each block, in declaration order -/

def channelBases : List EventType :=
  [UU_EVENT, N1_EVENT, N2_EVENT, N3_EVENT, PROFILE_SIMUE_EVENT, SIMUE_REALUE_EVENT,
   COMMON_EVENT]

def subRangeBases : List EventType :=
  [UE_5GS_MOBILITY_MANAGEMENT_EVENTS, UE_5GS_SESSION_MANAGEMENT_EVENTS]

def commonEvents : List EventType := [INIT_EVENT, QUIT_EVENT, ERROR_EVENT]

def profileSimueEvents : List EventType :=
  [PROFILE_START_EVENT, PROFILE_PASS_EVENT, PROFILE_FAIL_EVENT]

def simueRealueEvents : List EventType :=
  [DATA_PKT_GEN_REQUEST_EVENT, DATA_PKT_GEN_SUCCESS_EVENT, DATA_PKT_GEN_FAILURE_EVENT]

def uuEvents : List EventType :=
  [CONNECTION_REQUEST_EVENT, CONNECTION_RELEASE_REQUEST_EVENT, UL_INFO_TRANSFER_EVENT,
   DL_INFO_TRANSFER_EVENT, UL_UE_DATA_TRANSFER_EVENT, DL_UE_DATA_TRANSFER_EVENT,
   END_MARKER_EVENT, DATA_BEARER_SETUP_REQUEST_EVENT, DATA_BEARER_SETUP_RESPONSE_EVENT,
   CTX_RELEASE_ACKNOWLEDGEMENT_EVENT, TRIGGER_AN_RELEASE_EVENT]

def mobilityEvents : List EventType :=
  [REG_REQUEST_EVENT, REG_ACCEPT_EVENT, REG_COMPLETE_EVENT, REG_REJECT_EVENT,
   DEREG_REQUEST_UE_ORIG_EVENT, DEREG_ACCEPT_UE_ORIG_EVENT, DEREG_REQUEST_UE_TERM_EVENT,
   DEREG_ACCEPT_UE_TERM_EVENT, SERVICE_REQUEST_EVENT, SERVICE_REJECT_EVENT,
   SERVICE_ACCEPT_EVENT, AUTH_REQUEST_EVENT, AUTH_RESPONSE_EVENT, AUTH_REJECT_EVENT,
   AUTH_FAILURE_EVENT, AUTH_RESULT_EVENT, ID_REQUEST_EVENT, ID_RESPONSE_EVENT,
   SEC_MOD_COMMAND_EVENT, SEC_MOD_COMPLETE_EVENT, SEC_MOD_REJECT_EVENT,
   FIVE_GMM_STATUS_EVENT, NOTIFICATION_EVENT, NOTIFICATION_RESPONSE_EVENT,
   UL_NAS_TRANSPORT_EVENT, DL_NAS_TRANSPORT_EVENT]

def sessionEvents : List EventType :=
  [PDU_SESS_EST_REQUEST_EVENT, PDU_SESS_EST_ACCEPT_EVENT, PDU_SESS_EST_REJECT_EVENT,
   PDU_SESS_AUTH_COMMAND_EVENT, PDU_SESS_AUTH_COMPLETE_EVENT, PDU_SESS_AUTH_RESULT_EVENT,
   PDU_SESS_MOD_REQUEST_EVENT, PDU_SESS_MOD_REJECT_EVENT, PDU_SESS_MOD_COMMAND_EVENT,
   PDU_SESS_MOD_COMPLETE_EVENT, PDU_SESS_MOD_CMD_REJECT_EVENT, PDU_SESS_REL_REQUEST_EVENT,
   PDU_SESS_REL_REJECT_EVENT, PDU_SESS_REL_COMMAND_EVENT, PDU_SESS_REL_COMPLETE_EVENT,
   FIVEGSM_STATUS_EVENT]

def n2Events : List EventType :=
  [DOWNLINK_NAS_TRANSPORT_EVENT, INITIAL_CTX_SETUP_REQUEST_EVENT,
   PDU_SESS_RESOURCE_SETUP_REQUEST_EVENT, UE_CTX_RELEASE_COMMAND_EVENT]

def n3Events : List EventType := [DL_UE_DATA_TRANSPORT_EVENT]

/-- The 67 event constants: every named constant of an event block, block by
block in the order of the file. -/
def eventConstants : List EventType :=
  commonEvents ++ profileSimueEvents ++ simueRealueEvents ++ uuEvents ++ mobilityEvents ++
    sessionEvents ++ n2Events ++ n3Events

/-! ## Names

The identifiers of all named `EventType` constants of the file, and the value
each identifier denotes. -/

inductive ConstName where
  | UU_EVENT
  | N1_EVENT
  | N2_EVENT
  | N3_EVENT
  | PROFILE_SIMUE_EVENT
  | SIMUE_REALUE_EVENT
  | COMMON_EVENT
  | INIT_EVENT
  | QUIT_EVENT
  | ERROR_EVENT
  | PROFILE_START_EVENT
  | PROFILE_PASS_EVENT
  | PROFILE_FAIL_EVENT
  | DATA_PKT_GEN_REQUEST_EVENT
  | DATA_PKT_GEN_SUCCESS_EVENT
  | DATA_PKT_GEN_FAILURE_EVENT
  | CONNECTION_REQUEST_EVENT
  | CONNECTION_RELEASE_REQUEST_EVENT
  | UL_INFO_TRANSFER_EVENT
  | DL_INFO_TRANSFER_EVENT
  | UL_UE_DATA_TRANSFER_EVENT
  | DL_UE_DATA_TRANSFER_EVENT
  | END_MARKER_EVENT
  | DATA_BEARER_SETUP_REQUEST_EVENT
  | DATA_BEARER_SETUP_RESPONSE_EVENT
  | CTX_RELEASE_ACKNOWLEDGEMENT_EVENT
  | TRIGGER_AN_RELEASE_EVENT
  | UE_5GS_MOBILITY_MANAGEMENT_EVENTS
  | UE_5GS_SESSION_MANAGEMENT_EVENTS
  | REG_REQUEST_EVENT
  | REG_ACCEPT_EVENT
  | REG_COMPLETE_EVENT
  | REG_REJECT_EVENT
  | DEREG_REQUEST_UE_ORIG_EVENT
  | DEREG_ACCEPT_UE_ORIG_EVENT
  | DEREG_REQUEST_UE_TERM_EVENT
  | DEREG_ACCEPT_UE_TERM_EVENT
  | SERVICE_REQUEST_EVENT
  | SERVICE_REJECT_EVENT
  | SERVICE_ACCEPT_EVENT
  | AUTH_REQUEST_EVENT
  | AUTH_RESPONSE_EVENT
  | AUTH_REJECT_EVENT
  | AUTH_FAILURE_EVENT
  | AUTH_RESULT_EVENT
  | ID_REQUEST_EVENT
  | ID_RESPONSE_EVENT
  | SEC_MOD_COMMAND_EVENT
  | SEC_MOD_COMPLETE_EVENT
  | SEC_MOD_REJECT_EVENT
  | FIVE_GMM_STATUS_EVENT
  | NOTIFICATION_EVENT
  | NOTIFICATION_RESPONSE_EVENT
  | UL_NAS_TRANSPORT_EVENT
  | DL_NAS_TRANSPORT_EVENT
  | PDU_SESS_EST_REQUEST_EVENT
  | PDU_SESS_EST_ACCEPT_EVENT
  | PDU_SESS_EST_REJECT_EVENT
  | PDU_SESS_AUTH_COMMAND_EVENT
  | PDU_SESS_AUTH_COMPLETE_EVENT
  | PDU_SESS_AUTH_RESULT_EVENT
  | PDU_SESS_MOD_REQUEST_EVENT
  | PDU_SESS_MOD_REJECT_EVENT
  | PDU_SESS_MOD_COMMAND_EVENT
  | PDU_SESS_MOD_COMPLETE_EVENT
  | PDU_SESS_MOD_CMD_REJECT_EVENT
  | PDU_SESS_REL_REQUEST_EVENT
  | PDU_SESS_REL_REJECT_EVENT
  | PDU_SESS_REL_COMMAND_EVENT
  | PDU_SESS_REL_COMPLETE_EVENT
  | FIVEGSM_STATUS_EVENT
  | DOWNLINK_NAS_TRANSPORT_EVENT
  | INITIAL_CTX_SETUP_REQUEST_EVENT
  | PDU_SESS_RESOURCE_SETUP_REQUEST_EVENT
  | UE_CTX_RELEASE_COMMAND_EVENT
  | DL_UE_DATA_TRANSPORT_EVENT
  deriving DecidableEq, Repr, Fintype

def valueOf : ConstName → EventType
  | .UU_EVENT => UU_EVENT
  | .N1_EVENT => N1_EVENT
  | .N2_EVENT => N2_EVENT
  | .N3_EVENT => N3_EVENT
  | .PROFILE_SIMUE_EVENT => PROFILE_SIMUE_EVENT
  | .SIMUE_REALUE_EVENT => SIMUE_REALUE_EVENT
  | .COMMON_EVENT => COMMON_EVENT
  | .INIT_EVENT => INIT_EVENT
  | .QUIT_EVENT => QUIT_EVENT
  | .ERROR_EVENT => ERROR_EVENT
  | .PROFILE_START_EVENT => PROFILE_START_EVENT
  | .PROFILE_PASS_EVENT => PROFILE_PASS_EVENT
  | .PROFILE_FAIL_EVENT => PROFILE_FAIL_EVENT
  | .DATA_PKT_GEN_REQUEST_EVENT => DATA_PKT_GEN_REQUEST_EVENT
  | .DATA_PKT_GEN_SUCCESS_EVENT => DATA_PKT_GEN_SUCCESS_EVENT
  | .DATA_PKT_GEN_FAILURE_EVENT => DATA_PKT_GEN_FAILURE_EVENT
  | .CONNECTION_REQUEST_EVENT => CONNECTION_REQUEST_EVENT
  | .CONNECTION_RELEASE_REQUEST_EVENT => CONNECTION_RELEASE_REQUEST_EVENT
  | .UL_INFO_TRANSFER_EVENT => UL_INFO_TRANSFER_EVENT
  | .DL_INFO_TRANSFER_EVENT => DL_INFO_TRANSFER_EVENT
  | .UL_UE_DATA_TRANSFER_EVENT => UL_UE_DATA_TRANSFER_EVENT
  | .DL_UE_DATA_TRANSFER_EVENT => DL_UE_DATA_TRANSFER_EVENT
  | .END_MARKER_EVENT => END_MARKER_EVENT
  | .DATA_BEARER_SETUP_REQUEST_EVENT => DATA_BEARER_SETUP_REQUEST_EVENT
  | .DATA_BEARER_SETUP_RESPONSE_EVENT => DATA_BEARER_SETUP_RESPONSE_EVENT
  | .CTX_RELEASE_ACKNOWLEDGEMENT_EVENT => CTX_RELEASE_ACKNOWLEDGEMENT_EVENT
  | .TRIGGER_AN_RELEASE_EVENT => TRIGGER_AN_RELEASE_EVENT
  | .UE_5GS_MOBILITY_MANAGEMENT_EVENTS => UE_5GS_MOBILITY_MANAGEMENT_EVENTS
  | .UE_5GS_SESSION_MANAGEMENT_EVENTS => UE_5GS_SESSION_MANAGEMENT_EVENTS
  | .REG_REQUEST_EVENT => REG_REQUEST_EVENT
  | .REG_ACCEPT_EVENT => REG_ACCEPT_EVENT
  | .REG_COMPLETE_EVENT => REG_COMPLETE_EVENT
  | .REG_REJECT_EVENT => REG_REJECT_EVENT
  | .DEREG_REQUEST_UE_ORIG_EVENT => DEREG_REQUEST_UE_ORIG_EVENT
  | .DEREG_ACCEPT_UE_ORIG_EVENT => DEREG_ACCEPT_UE_ORIG_EVENT
  | .DEREG_REQUEST_UE_TERM_EVENT => DEREG_REQUEST_UE_TERM_EVENT
  | .DEREG_ACCEPT_UE_TERM_EVENT => DEREG_ACCEPT_UE_TERM_EVENT
  | .SERVICE_REQUEST_EVENT => SERVICE_REQUEST_EVENT
  | .SERVICE_REJECT_EVENT => SERVICE_REJECT_EVENT
  | .SERVICE_ACCEPT_EVENT => SERVICE_ACCEPT_EVENT
  | .AUTH_REQUEST_EVENT => AUTH_REQUEST_EVENT
  | .AUTH_RESPONSE_EVENT => AUTH_RESPONSE_EVENT
  | .AUTH_REJECT_EVENT => AUTH_REJECT_EVENT
  | .AUTH_FAILURE_EVENT => AUTH_FAILURE_EVENT
  | .AUTH_RESULT_EVENT => AUTH_RESULT_EVENT
  | .ID_REQUEST_EVENT => ID_REQUEST_EVENT
  | .ID_RESPONSE_EVENT => ID_RESPONSE_EVENT
  | .SEC_MOD_COMMAND_EVENT => SEC_MOD_COMMAND_EVENT
  | .SEC_MOD_COMPLETE_EVENT => SEC_MOD_COMPLETE_EVENT
  | .SEC_MOD_REJECT_EVENT => SEC_MOD_REJECT_EVENT
  | .FIVE_GMM_STATUS_EVENT => FIVE_GMM_STATUS_EVENT
  | .NOTIFICATION_EVENT => NOTIFICATION_EVENT
  | .NOTIFICATION_RESPONSE_EVENT => NOTIFICATION_RESPONSE_EVENT
  | .UL_NAS_TRANSPORT_EVENT => UL_NAS_TRANSPORT_EVENT
  | .DL_NAS_TRANSPORT_EVENT => DL_NAS_TRANSPORT_EVENT
  | .PDU_SESS_EST_REQUEST_EVENT => PDU_SESS_EST_REQUEST_EVENT
  | .PDU_SESS_EST_ACCEPT_EVENT => PDU_SESS_EST_ACCEPT_EVENT
  | .PDU_SESS_EST_REJECT_EVENT => PDU_SESS_EST_REJECT_EVENT
  | .PDU_SESS_AUTH_COMMAND_EVENT => PDU_SESS_AUTH_COMMAND_EVENT
  | .PDU_SESS_AUTH_COMPLETE_EVENT => PDU_SESS_AUTH_COMPLETE_EVENT
  | .PDU_SESS_AUTH_RESULT_EVENT => PDU_SESS_AUTH_RESULT_EVENT
  | .PDU_SESS_MOD_REQUEST_EVENT => PDU_SESS_MOD_REQUEST_EVENT
  | .PDU_SESS_MOD_REJECT_EVENT => PDU_SESS_MOD_REJECT_EVENT
  | .PDU_SESS_MOD_COMMAND_EVENT => PDU_SESS_MOD_COMMAND_EVENT
  | .PDU_SESS_MOD_COMPLETE_EVENT => PDU_SESS_MOD_COMPLETE_EVENT
  | .PDU_SESS_MOD_CMD_REJECT_EVENT => PDU_SESS_MOD_CMD_REJECT_EVENT
  | .PDU_SESS_REL_REQUEST_EVENT => PDU_SESS_REL_REQUEST_EVENT
  | .PDU_SESS_REL_REJECT_EVENT => PDU_SESS_REL_REJECT_EVENT
  | .PDU_SESS_REL_COMMAND_EVENT => PDU_SESS_REL_COMMAND_EVENT
  | .PDU_SESS_REL_COMPLETE_EVENT => PDU_SESS_REL_COMPLETE_EVENT
  | .FIVEGSM_STATUS_EVENT => FIVEGSM_STATUS_EVENT
  | .DOWNLINK_NAS_TRANSPORT_EVENT => DOWNLINK_NAS_TRANSPORT_EVENT
  | .INITIAL_CTX_SETUP_REQUEST_EVENT => INITIAL_CTX_SETUP_REQUEST_EVENT
  | .PDU_SESS_RESOURCE_SETUP_REQUEST_EVENT => PDU_SESS_RESOURCE_SETUP_REQUEST_EVENT
  | .UE_CTX_RELEASE_COMMAND_EVENT => UE_CTX_RELEASE_COMMAND_EVENT
  | .DL_UE_DATA_TRANSPORT_EVENT => DL_UE_DATA_TRANSPORT_EVENT

/-! ## Channels -/

/-- The seven interfaces an event can belong to. -/
inductive Channel where
  | UU | N1 | N2 | N3 | PROFILE_SIMUE | SIMUE_REALUE | COMMON
  deriving DecidableEq, Repr, Fintype

/-- Base constant of a channel. -/
def Channel.base : Channel → EventType
  | .UU => UU_EVENT
  | .N1 => N1_EVENT
  | .N2 => N2_EVENT
  | .N3 => N3_EVENT
  | .PROFILE_SIMUE => PROFILE_SIMUE_EVENT
  | .SIMUE_REALUE => SIMUE_REALUE_EVENT
  | .COMMON => COMMON_EVENT

/-- Event constants declared in the const block(s) of a channel; N1 has the
5GMM block followed by the 5GSM block. -/
def Channel.events : Channel → List EventType
  | .UU => uuEvents
  | .N1 => mobilityEvents ++ sessionEvents
  | .N2 => n2Events
  | .N3 => n3Events
  | .PROFILE_SIMUE => profileSimueEvents
  | .SIMUE_REALUE => simueRealueEvents
  | .COMMON => commonEvents

/-- Modelled from the spec: the mask `CHANNEL_MASK` selecting the most
significant byte of the 32-bit word; events.go declares no such constant and
only describes it in the comment of line 12. -/
def CHANNEL_MASK : EventType := 0xFF000000

/-! ## Name table and resolver (lines 153-229) -/

/-- Go: `var evtStrMap map[EventType]string`, the entries of the composite
literal in source order.  The keys of a Go map literal are pairwise distinct
constants (`evtStrMap_keys_nodup`), so a lookup by first match is the map
lookup. -/
def evtStrMap : List (EventType × String) :=
  [ (INIT_EVENT, "INIT-EVENT")
  , (QUIT_EVENT, "QUIT-EVENT")
  , (ERROR_EVENT, "ERROR-EVENT")
  , (PROFILE_START_EVENT, "PROFILE-START-EVENT")
  , (PROFILE_PASS_EVENT, "PROFILE-PASS-EVENT")
  , (PROFILE_FAIL_EVENT, "PROFILE-FAIL-EVENT")
  , (DATA_PKT_GEN_REQUEST_EVENT, "DATA-PACKET-GENERATION-REQUEST-EVENT")
  , (DATA_PKT_GEN_SUCCESS_EVENT, "DATA-PACKET-SUCCESS-EVENT")
  , (DATA_PKT_GEN_FAILURE_EVENT, "DATA-PACKET-FAILURE-EVENT")
  , (CONNECTION_REQUEST_EVENT, "CONNECTION-REQUEST-EVENT")
  , (CONNECTION_RELEASE_REQUEST_EVENT, "CONNECTION-RELEASE-REQUEST-EVENT")
  , (UL_INFO_TRANSFER_EVENT, "UL-INFO-TRANSFER-EVENT")
  , (DL_INFO_TRANSFER_EVENT, "DL-INFO-TRANSFER-EVENT")
  , (UL_UE_DATA_TRANSFER_EVENT, "UL-UE-DATA-TRANSFER-EVENT")
  , (DL_UE_DATA_TRANSFER_EVENT, "DL-UE-DATA-TRANSFER-EVENT")
  , (END_MARKER_EVENT, "END-MARKER-EVENT")
  , (DATA_BEARER_SETUP_REQUEST_EVENT, "DATA-BEARER-SETUP-REQUEST-EVENT")
  , (DATA_BEARER_SETUP_RESPONSE_EVENT, "DATA-BEARER-SETUP-RESPONSE-EVENT")
  , (CTX_RELEASE_ACKNOWLEDGEMENT_EVENT, "CONTEXT-RELEASE-ACKNOWLEDGEMENT-EVENT")
  , (TRIGGER_AN_RELEASE_EVENT, "TRIGGER-AN-RELEASE-EVENT")
  , (REG_REQUEST_EVENT, "REGESTRATION-REQUEST-EVENT")
  , (REG_ACCEPT_EVENT, "REGESTRATION-ACCEPT-EVENT")
  , (REG_COMPLETE_EVENT, "REGESTRATION-COMPLETE-EVENT")
  , (REG_REJECT_EVENT, "REGESTRATION-REJECT-EVENT")
  , (DEREG_REQUEST_UE_ORIG_EVENT, "DEREGISTRATION-REQUEST-UE-ORIG-EVENT")
  , (DEREG_ACCEPT_UE_ORIG_EVENT, "DEREGISTRATION-ACCEPT-UE-ORIG-EVENT")
  , (DEREG_REQUEST_UE_TERM_EVENT, "DEREGISTRATION-REQUEST-UE-TERM-EVENT")
  , (DEREG_ACCEPT_UE_TERM_EVENT, "DEREGISTRATION-ACCEPT-UE-TERM-EVENT")
  , (SERVICE_REQUEST_EVENT, "SERVICE-REQUEST-EVENT")
  , (SERVICE_REJECT_EVENT, "SERVICE-REJECT-EVENT")
  , (SERVICE_ACCEPT_EVENT, "SERVICE-ACCEPT-EVENT")
  , (AUTH_REQUEST_EVENT, "AUTHENTICATION-REQUEST-EVENT")
  , (AUTH_RESPONSE_EVENT, "AUTHENTICATION-RESPONSE-EVENT")
  , (AUTH_REJECT_EVENT, "AUTHENTICATION-REJECT-EVENT")
  , (AUTH_FAILURE_EVENT, "AUTHENTICATION-FAILURE-EVENT")
  , (AUTH_RESULT_EVENT, "AUTHENTICATION-RESULT-EVENT")
  , (ID_REQUEST_EVENT, "ID-REQUEST-EVENT")
  , (ID_RESPONSE_EVENT, "ID-RESPONSE-EVENT")
  , (SEC_MOD_COMMAND_EVENT, "SECURITY-MODE-COMMAND-EVENT")
  , (SEC_MOD_COMPLETE_EVENT, "SECURITY-MODE-COMPLETE-EVENT")
  , (SEC_MOD_REJECT_EVENT, "SECURITY-MODE-REJECT-EVENT")
  , (FIVE_GMM_STATUS_EVENT, "FIVE-GMM-STATUS-EVENT")
  , (NOTIFICATION_EVENT, "NOTIFICATION-EVENT")
  , (NOTIFICATION_RESPONSE_EVENT, "NOTIFICATION-RESPONSE-EVENT")
  , (UL_NAS_TRANSPORT_EVENT, "UL-NAS-TRANSPORT-EVENT")
  , (DL_NAS_TRANSPORT_EVENT, "DL-NAS-TRANSPORT-EVENT")
  , (PDU_SESS_EST_REQUEST_EVENT, "PDU-SESSION-ESTABLISHMENT-REQUEST-EVENT")
  , (PDU_SESS_EST_ACCEPT_EVENT, "PDU-SESSION-ESTABLISHMENT-ACCEPT-EVENT")
  , (PDU_SESS_EST_REJECT_EVENT, "PDU-SESSION-ESTABLISHMENT-REJECT-EVENT")
  , (PDU_SESS_AUTH_COMMAND_EVENT, "PDU-SESSION-AUTHENTICATION-COMMAND-EVENT")
  , (PDU_SESS_AUTH_COMPLETE_EVENT, "PDU-SESSION-AUTHENTICATION-COMPLETE-EVENT")
  , (PDU_SESS_AUTH_RESULT_EVENT, "PDU-SESSION-AUTHENTICATION-RESULT-EVENT")
  , (PDU_SESS_MOD_REQUEST_EVENT, "PDU-SESSION-MODIFICATION-REQUEST-EVENT")
  , (PDU_SESS_MOD_REJECT_EVENT, "PDU-SESSION-MODIFICATION-REJECT-EVENT")
  , (PDU_SESS_MOD_COMMAND_EVENT, "PDU-SESSION-MODIFICATION-COMMAND-EVENT")
  , (PDU_SESS_MOD_COMPLETE_EVENT, "PDU-SESSION-MODIFICATION-COMPLETE-EVENT")
  , (PDU_SESS_MOD_CMD_REJECT_EVENT, "PDU-SESSION-MODIFICATION-COMMAND-REJECT-EVENT")
  , (PDU_SESS_REL_REQUEST_EVENT, "PDU-SESSION-RELEASE-REQUEST-EVENT")
  , (PDU_SESS_REL_REJECT_EVENT, "PDU-SESSION-RELEASE-REJECT-EVENT")
  , (PDU_SESS_REL_COMMAND_EVENT, "PDU-SESSION-RELEASE-COMMAND-EVENT")
  , (PDU_SESS_REL_COMPLETE_EVENT, "PDU-SESSION-RELEASE-COMPLETE-EVENT")
  , (FIVEGSM_STATUS_EVENT, "FIVEGSM-STATUS-EVENT")
  , (DOWNLINK_NAS_TRANSPORT_EVENT, "DOWNLINK-NAS-TRANSPORT-EVENT")
  , (INITIAL_CTX_SETUP_REQUEST_EVENT, "INITIAL-CONTEXT-SETUP-REQUEST-EVENT")
  , (PDU_SESS_RESOURCE_SETUP_REQUEST_EVENT, "PDU-SESSION-RESOURCE-SETUP-REQUEST-EVENT")
  , (UE_CTX_RELEASE_COMMAND_EVENT, "UE-CONTEXT-RELEASE-COMMAND-EVENT")
  , (DL_UE_DATA_TRANSPORT_EVENT, "DL-UE-DATA-TRANSPORT-EVENT") ]

/-- Go: `v, ok := m[id]`; a missing key yields the zero value and `false`. -/
def mapIndex (m : List (EventType × String)) (id : EventType) : String × Bool :=
  match m.lookup id with
  | some v => (v, true)
  | none => ("", false)

/-- Arguments handed to `logger.AppLog.Fatalln`. -/
structure FatalLog where
  text : String
  id : EventType
  deriving DecidableEq, Repr

/-- Go: `func GetEvtString(id EventType) string`.  `Fatalln` ends the process,
which is the `error` result; otherwise `evtStr` is returned. -/
def GetEvtString (id : EventType) : Except FatalLog String :=
  let (evtStr, ok) := mapIndex evtStrMap id
  if !ok then
    .error ⟨"Invaid Event ID:", id⟩
  else
    .ok evtStr

/-! ## Shape of the display names -/

/-- An upper-case ASCII letter or a hyphen. -/
def isNameChar (c : Char) : Bool :=
  c.isUpper || c == '-'

/-- The string ends with "-EVENT". -/
def hasEventSuffix (s : String) : Bool :=
  "-EVENT".toList.isSuffixOf s.toList

/-- A single token: upper-case ASCII letters and hyphens only, ending with
"-EVENT", without any whitespace character. -/
def isEventToken (s : String) : Bool :=
  s.toList.all isNameChar && hasEventSuffix s && !s.toList.any Char.isWhitespace

/-! ## Cross-checks of the embedding -/

theorem common_block_eval : evalConstBlock commonLines = commonEvents := by decide!

theorem profileSimue_block_eval : evalConstBlock profileSimueLines = profileSimueEvents := by
  decide!

theorem simueRealue_block_eval : evalConstBlock simueRealueLines = simueRealueEvents := by
  decide!

theorem uu_block_eval : evalConstBlock uuLines = uuEvents := by decide!

/-- The blank identifier of line 81 takes the value of the sub-range base. -/
theorem mobility_block_eval :
    evalConstBlock mobilityLines = (UE_5GS_MOBILITY_MANAGEMENT_EVENTS + 0) :: mobilityEvents := by
  decide!

/-- The blank identifier of line 116 takes the value of the sub-range base. -/
theorem session_block_eval :
    evalConstBlock sessionLines = (UE_5GS_SESSION_MANAGEMENT_EVENTS + 0) :: sessionEvents := by
  decide!

theorem n2_block_eval : evalConstBlock n2Lines = n2Events := by decide!

theorem n3_block_eval : evalConstBlock n3Lines = n3Events := by decide!

/-- Every constant fits in a `uint32`. -/
theorem eventType_lt (n : ConstName) : valueOf n < 2 ^ 32 := by
  revert n; decide!

theorem eventConstants_length : eventConstants.length = 67 := by decide!

/-- The identifiers denote exactly the values of the three groups of constants. -/
theorem valueOf_mem (n : ConstName) :
    valueOf n ∈ channelBases ++ subRangeBases ++ eventConstants := by
  revert n; decide!

/-- An identifier names an event exactly when it names no base. -/
theorem valueOf_mem_eventConstants (n : ConstName) :
    valueOf n ∈ eventConstants ↔ valueOf n ∉ channelBases ++ subRangeBases := by
  revert n; decide!

theorem mem_constants (v : EventType) (h : v ∈ channelBases ++ subRangeBases ++ eventConstants) :
    ∃ n : ConstName, valueOf n = v := by
  revert v; decide!

/-- The keys of the map literal are the event constants, in the order of their
declaration. -/
theorem evtStrMap_keys : evtStrMap.map Prod.fst = eventConstants := by decide!

theorem evtStrMap_keys_nodup : (evtStrMap.map Prod.fst).Nodup := by decide!

theorem evtStrMap_values_nonempty : ∀ p ∈ evtStrMap, p.2 ≠ "" := by decide!

/-- The mask keeps the top byte of a 32-bit word and clears the low 24 bits. -/
theorem and_channel_mask (v : EventType) (h : v < 2 ^ 32) :
    v &&& CHANNEL_MASK = v / 2 ^ 24 * 2 ^ 24 := by
  apply Nat.eq_of_testBit_eq
  intro i
  have hm : CHANNEL_MASK = (2 ^ 8 - 1) <<< 24 := by decide
  rw [Nat.testBit_and, hm, Nat.testBit_shiftLeft, Nat.testBit_two_pow_sub_one,
    ← Nat.shiftLeft_eq, Nat.testBit_shiftLeft, ← Nat.shiftRight_eq_div_pow,
    Nat.testBit_shiftRight]
  by_cases h24 : 24 ≤ i
  · have e : 24 + (i - 24) = i := by omega
    by_cases h32 : i < 32
    · have : i - 24 < 8 := by omega
      simp [h24, this, e]
    · have hv : v.testBit i = false :=
        Nat.testBit_lt_two_pow (lt_of_lt_of_le h (Nat.pow_le_pow_right (by decide) (by omega)))
      simp [e, hv]
  · simp [h24]

/-- A 32-bit value lies in the band of a channel exactly when the mask yields
the base of that channel. -/
theorem mask_eq_base_iff (X : Channel) (v : EventType) (h : v < 2 ^ 32) :
    v &&& CHANNEL_MASK = X.base ↔ X.base ≤ v ∧ v - X.base < 2 ^ 24 := by
  rw [and_channel_mask v h]
  have key : ∀ (w k : Nat), k < 256 → (w / 2 ^ 24 * 2 ^ 24 = k * 2 ^ 24 ↔
      k * 2 ^ 24 ≤ w ∧ w - k * 2 ^ 24 < 2 ^ 24) := by
    intro w k _
    omega
  cases X
  · exact key v 1 (by decide)
  · exact key v 2 (by decide)
  · exact key v 3 (by decide)
  · exact key v 4 (by decide)
  · exact key v 5 (by decide)
  · exact key v 6 (by decide)
  · exact key v 7 (by decide)

/-! ## The resolver in terms of the table -/

theorem GetEvtString_of_lookup_some {id : EventType} {s : String}
    (h : evtStrMap.lookup id = some s) : GetEvtString id = .ok s := by
  simp [GetEvtString, mapIndex, h]

theorem GetEvtString_of_lookup_none {id : EventType}
    (h : evtStrMap.lookup id = none) :
    GetEvtString id = .error ⟨"Invaid Event ID:", id⟩ := by
  simp [GetEvtString, mapIndex, h]

theorem lookup_eq_none_iff_not_key (m : List (EventType × String)) (id : EventType) :
    m.lookup id = none ↔ id ∉ m.map Prod.fst := by
  rw [List.lookup_eq_none_iff]
  constructor
  · intro h hmem
    obtain ⟨p, hp, rfl⟩ := List.mem_map.1 hmem
    simpa using h p hp
  · intro h p hp
    have : p.1 ≠ id := fun e => h (List.mem_map.2 ⟨p, hp, e⟩)
    simpa using fun e => this e.symm

theorem mem_of_lookup_eq_some {m : List (EventType × String)} {id : EventType} {s : String}
    (h : m.lookup id = some s) : (id, s) ∈ m := by
  obtain ⟨l₁, l₂, rfl, -⟩ := List.lookup_eq_some_iff.1 h
  simp

/-! ## Properties of the identifier space -/

/-- C1 (uniqueness, I1): two distinct identifiers among the 76 named `EventType`
constants of events.go (7 channel bases, 2 N1 sub-range bases, 67 events)
never denote the same numeric value. -/
theorem constant_values_unique (a b : ConstName) (h : a ≠ b) : valueOf a ≠ valueOf b := by
  revert a b
  decide!

theorem constant_values_unique_witness :
    ConstName.UE_5GS_MOBILITY_MANAGEMENT_EVENTS ≠ ConstName.REG_REQUEST_EVENT ∧
      valueOf .UE_5GS_MOBILITY_MANAGEMENT_EVENTS ≠ valueOf .REG_REQUEST_EVENT :=
  ⟨by decide, constant_values_unique _ _ (by decide)⟩

/-- C2 (band containment, I2): an event constant declared in the block(s) of
channel `X` has the base of `X` as its masked value, which is the base of no
other channel, and its ordinal `v - base X` lies strictly between 0 and
`2 ^ 24`. -/
theorem band_containment (X : Channel) (v : EventType) (hv : v ∈ X.events) :
    v &&& CHANNEL_MASK = X.base ∧ (∀ Y : Channel, Y ≠ X → v &&& CHANNEL_MASK ≠ Y.base) ∧
      X.base ≤ v ∧ 0 < v - X.base ∧ v - X.base < 2 ^ 24 := by
  revert X v
  decide!

theorem band_containment_witness :
    FIVEGSM_STATUS_EVENT &&& CHANNEL_MASK = N1_EVENT ∧
      (∀ Y : Channel, Y ≠ .N1 → FIVEGSM_STATUS_EVENT &&& CHANNEL_MASK ≠ Y.base) ∧
      N1_EVENT ≤ FIVEGSM_STATUS_EVENT ∧ 0 < FIVEGSM_STATUS_EVENT - N1_EVENT ∧
      FIVEGSM_STATUS_EVENT - N1_EVENT < 2 ^ 24 :=
  band_containment .N1 FIVEGSM_STATUS_EVENT (by decide!)

/-- C3 (5GMM standard-code fidelity): every constant of the 5GS Mobility
Management block lies above `N1_EVENT` by the NAS message type code of
3GPP TS 24.501 section 9.7, and the 26 constants listed are the whole block. -/
theorem mobility_codes :
    REG_REQUEST_EVENT - N1_EVENT = 65 ∧ REG_ACCEPT_EVENT - N1_EVENT = 66 ∧
    REG_COMPLETE_EVENT - N1_EVENT = 67 ∧ REG_REJECT_EVENT - N1_EVENT = 68 ∧
    DEREG_REQUEST_UE_ORIG_EVENT - N1_EVENT = 69 ∧ DEREG_ACCEPT_UE_ORIG_EVENT - N1_EVENT = 70 ∧
    DEREG_REQUEST_UE_TERM_EVENT - N1_EVENT = 71 ∧ DEREG_ACCEPT_UE_TERM_EVENT - N1_EVENT = 72 ∧
    SERVICE_REQUEST_EVENT - N1_EVENT = 76 ∧ SERVICE_REJECT_EVENT - N1_EVENT = 77 ∧
    SERVICE_ACCEPT_EVENT - N1_EVENT = 78 ∧ AUTH_REQUEST_EVENT - N1_EVENT = 86 ∧
    AUTH_RESPONSE_EVENT - N1_EVENT = 87 ∧ AUTH_REJECT_EVENT - N1_EVENT = 88 ∧
    AUTH_FAILURE_EVENT - N1_EVENT = 89 ∧ AUTH_RESULT_EVENT - N1_EVENT = 90 ∧
    ID_REQUEST_EVENT - N1_EVENT = 91 ∧ ID_RESPONSE_EVENT - N1_EVENT = 92 ∧
    SEC_MOD_COMMAND_EVENT - N1_EVENT = 93 ∧ SEC_MOD_COMPLETE_EVENT - N1_EVENT = 94 ∧
    SEC_MOD_REJECT_EVENT - N1_EVENT = 95 ∧ FIVE_GMM_STATUS_EVENT - N1_EVENT = 100 ∧
    NOTIFICATION_EVENT - N1_EVENT = 101 ∧ NOTIFICATION_RESPONSE_EVENT - N1_EVENT = 102 ∧
    UL_NAS_TRANSPORT_EVENT - N1_EVENT = 103 ∧ DL_NAS_TRANSPORT_EVENT - N1_EVENT = 104 ∧
    (evalConstBlock mobilityLines).tail =
      [65, 66, 67, 68, 69, 70, 71, 72, 76, 77, 78, 86, 87, 88, 89, 90, 91, 92, 93, 94, 95,
        100, 101, 102, 103, 104].map (fun code => N1_EVENT + code) := by
  decide!

/-- C4 (5GSM standard-code fidelity): every constant of the 5GS Session
Management block lies above `N1_EVENT` by the NAS message type code of
3GPP TS 24.501 section 9.7, the 16 constants listed are the whole block, and
in particular `PDU_SESS_EST_REQUEST_EVENT = N1_EVENT + 193`. -/
theorem session_codes :
    PDU_SESS_EST_REQUEST_EVENT - N1_EVENT = 193 ∧ PDU_SESS_EST_ACCEPT_EVENT - N1_EVENT = 194 ∧
    PDU_SESS_EST_REJECT_EVENT - N1_EVENT = 195 ∧
    PDU_SESS_AUTH_COMMAND_EVENT - N1_EVENT = 197 ∧
    PDU_SESS_AUTH_COMPLETE_EVENT - N1_EVENT = 198 ∧
    PDU_SESS_AUTH_RESULT_EVENT - N1_EVENT = 199 ∧
    PDU_SESS_MOD_REQUEST_EVENT - N1_EVENT = 201 ∧ PDU_SESS_MOD_REJECT_EVENT - N1_EVENT = 202 ∧
    PDU_SESS_MOD_COMMAND_EVENT - N1_EVENT = 203 ∧
    PDU_SESS_MOD_COMPLETE_EVENT - N1_EVENT = 204 ∧
    PDU_SESS_MOD_CMD_REJECT_EVENT - N1_EVENT = 205 ∧
    PDU_SESS_REL_REQUEST_EVENT - N1_EVENT = 209 ∧ PDU_SESS_REL_REJECT_EVENT - N1_EVENT = 210 ∧
    PDU_SESS_REL_COMMAND_EVENT - N1_EVENT = 211 ∧
    PDU_SESS_REL_COMPLETE_EVENT - N1_EVENT = 212 ∧ FIVEGSM_STATUS_EVENT - N1_EVENT = 214 ∧
    (evalConstBlock sessionLines).tail =
      [193, 194, 195, 197, 198, 199, 201, 202, 203, 204, 205, 209, 210, 211, 212, 214].map
        (fun code => N1_EVENT + code) ∧
    PDU_SESS_EST_REQUEST_EVENT = N1_EVENT + 193 := by
  decide!

/-- C5 (name resolution is total on defined events): for each of the 67 event
constants the resolver does not take the fatal branch; it returns the string
paired with the constant in `evtStrMap`, and that string is not empty. -/
theorem getEvtString_defined (c : EventType) (hc : c ∈ eventConstants) :
    ∃ s : String, (c, s) ∈ evtStrMap ∧ GetEvtString c = .ok s ∧ s ≠ "" := by
  rw [← evtStrMap_keys] at hc
  cases hs : evtStrMap.lookup c with
  | none => exact absurd hc ((lookup_eq_none_iff_not_key evtStrMap c).1 hs)
  | some s =>
    have hmem := mem_of_lookup_eq_some hs
    exact ⟨s, hmem, GetEvtString_of_lookup_some hs, evtStrMap_values_nonempty _ hmem⟩

theorem getEvtString_defined_witness :
    TRIGGER_AN_RELEASE_EVENT ∈ eventConstants ∧
      ∃ s : String, (TRIGGER_AN_RELEASE_EVENT, s) ∈ evtStrMap ∧
        GetEvtString TRIGGER_AN_RELEASE_EVENT = .ok s ∧ s ≠ "" :=
  ⟨by decide!, getEvtString_defined TRIGGER_AN_RELEASE_EVENT (by decide!)⟩

/-- C6 (fatal on unknown): for every id, in particular every `uint32`, the
resolver takes the fatal branch exactly when the id is not the value of one of
the 67 event constants; and an id that is a key of `evtStrMap` is the value of
an event constant. -/
theorem fatal_iff_unknown (id : EventType) :
    ((∃ e, GetEvtString id = .error e) ↔ id ∉ eventConstants) ∧
      (id ∈ evtStrMap.map Prod.fst → id ∈ eventConstants) := by
  refine ⟨?_, fun h => evtStrMap_keys ▸ h⟩
  rw [← evtStrMap_keys, ← lookup_eq_none_iff_not_key]
  constructor
  · rintro ⟨e, he⟩
    cases hl : evtStrMap.lookup id with
    | none => rfl
    | some s => rw [GetEvtString_of_lookup_some hl] at he; cases he
  · intro hl
    exact ⟨_, GetEvtString_of_lookup_none hl⟩

theorem fatal_iff_unknown_witness :
    (∃ e, GetEvtString 0x2000000 = .error e) ∧ ERROR_EVENT ∈ eventConstants :=
  ⟨(fatal_iff_unknown 0x2000000).1.2 (by decide!),
    (fatal_iff_unknown ERROR_EVENT).2 (by decide!)⟩

/-- C7 (base markers are unnamed): none of the seven channel bases and neither
of the two N1 sub-range bases is a key of `evtStrMap`, and the resolver takes
the fatal branch on each of them. -/
theorem bases_unnamed (b : EventType)
    (hb : b ∈ [UU_EVENT, N1_EVENT, N2_EVENT, N3_EVENT, PROFILE_SIMUE_EVENT,
      SIMUE_REALUE_EVENT, COMMON_EVENT, UE_5GS_MOBILITY_MANAGEMENT_EVENTS,
      UE_5GS_SESSION_MANAGEMENT_EVENTS]) :
    b ∉ evtStrMap.map Prod.fst ∧ ∃ e, GetEvtString b = .error e := by
  have hkey : b ∉ evtStrMap.map Prod.fst := by
    revert b
    decide!
  exact ⟨hkey, _, GetEvtString_of_lookup_none
    ((lookup_eq_none_iff_not_key evtStrMap b).2 hkey)⟩

theorem bases_unnamed_witness :
    UE_5GS_SESSION_MANAGEMENT_EVENTS ∉ evtStrMap.map Prod.fst ∧
      ∃ e, GetEvtString UE_5GS_SESSION_MANAGEMENT_EVENTS = .error e :=
  bases_unnamed UE_5GS_SESSION_MANAGEMENT_EVENTS (by decide!)

/-- C8 (channel bases): the seven bases are `k * 2 ^ 24`, written `k <<< 24`,
for `k = 1, ..., 7`; each has its low 24 bits zero and fits in 32 bits, and
the seven top bytes are pairwise distinct. -/
theorem channel_bases :
    UU_EVENT = 1 <<< 24 ∧ N1_EVENT = 2 <<< 24 ∧ N2_EVENT = 3 <<< 24 ∧ N3_EVENT = 4 <<< 24 ∧
    PROFILE_SIMUE_EVENT = 5 <<< 24 ∧ SIMUE_REALUE_EVENT = 6 <<< 24 ∧
    COMMON_EVENT = 7 <<< 24 ∧
    channelBases = [1, 2, 3, 4, 5, 6, 7].map (fun k => k * 2 ^ 24) ∧
    (∀ X : Channel, X.base &&& 0xFFFFFF = 0 ∧ X.base % 2 ^ 24 = 0 ∧ X.base < 2 ^ 32 ∧
      X.base &&& CHANNEL_MASK = X.base) ∧
    (channelBases.map (fun b => b >>> 24)).Nodup ∧
    (∀ X Y : Channel, X.base >>> 24 = Y.base >>> 24 → X = Y) := by
  decide!

/-- C9 (contiguous runs): in the six channels without standardized numbering
the event constants are, in declaration order, `base + 1, ..., base + k` with
no gap, for `k` = 3, 3, 3, 11, 4, 1. -/
theorem contiguous_runs :
    [INIT_EVENT, QUIT_EVENT, ERROR_EVENT] =
      (List.range 3).map (fun i => COMMON_EVENT + 1 + i) ∧
    [PROFILE_START_EVENT, PROFILE_PASS_EVENT, PROFILE_FAIL_EVENT] =
      (List.range 3).map (fun i => PROFILE_SIMUE_EVENT + 1 + i) ∧
    [DATA_PKT_GEN_REQUEST_EVENT, DATA_PKT_GEN_SUCCESS_EVENT, DATA_PKT_GEN_FAILURE_EVENT] =
      (List.range 3).map (fun i => SIMUE_REALUE_EVENT + 1 + i) ∧
    [CONNECTION_REQUEST_EVENT, CONNECTION_RELEASE_REQUEST_EVENT, UL_INFO_TRANSFER_EVENT,
      DL_INFO_TRANSFER_EVENT, UL_UE_DATA_TRANSFER_EVENT, DL_UE_DATA_TRANSFER_EVENT,
      END_MARKER_EVENT, DATA_BEARER_SETUP_REQUEST_EVENT, DATA_BEARER_SETUP_RESPONSE_EVENT,
      CTX_RELEASE_ACKNOWLEDGEMENT_EVENT, TRIGGER_AN_RELEASE_EVENT] =
      (List.range 11).map (fun i => UU_EVENT + 1 + i) ∧
    [DOWNLINK_NAS_TRANSPORT_EVENT, INITIAL_CTX_SETUP_REQUEST_EVENT,
      PDU_SESS_RESOURCE_SETUP_REQUEST_EVENT, UE_CTX_RELEASE_COMMAND_EVENT] =
      (List.range 4).map (fun i => N2_EVENT + 1 + i) ∧
    [DL_UE_DATA_TRANSPORT_EVENT] = (List.range 1).map (fun i => N3_EVENT + 1 + i) ∧
    evalConstBlock commonLines = [COMMON_EVENT + 1, COMMON_EVENT + 2, COMMON_EVENT + 3] ∧
    evalConstBlock profileSimueLines =
      [PROFILE_SIMUE_EVENT + 1, PROFILE_SIMUE_EVENT + 2, PROFILE_SIMUE_EVENT + 3] ∧
    evalConstBlock simueRealueLines =
      [SIMUE_REALUE_EVENT + 1, SIMUE_REALUE_EVENT + 2, SIMUE_REALUE_EVENT + 3] ∧
    evalConstBlock uuLines = (List.range 11).map (fun i => UU_EVENT + 1 + i) ∧
    evalConstBlock n2Lines = [N2_EVENT + 1, N2_EVENT + 2, N2_EVENT + 3, N2_EVENT + 4] ∧
    evalConstBlock n3Lines = [N3_EVENT + 1] := by
  decide!

/-- C10 (registration request): the resolver returns exactly
"REGESTRATION-REQUEST-EVENT", in the spelling of the source, for
`REG_REQUEST_EVENT`, which is `N1_EVENT + 65`. -/
theorem reg_request_name :
    GetEvtString REG_REQUEST_EVENT = .ok "REGESTRATION-REQUEST-EVENT" ∧
      REG_REQUEST_EVENT = N1_EVENT + 65 := by
  exact ⟨rfl, rfl⟩

theorem evtStrMap_values_nodup : (evtStrMap.map Prod.snd).Nodup := by decide!

theorem evtStrMap_values_token : ∀ p ∈ evtStrMap, isEventToken p.2 = true := by decide!

theorem GetEvtString_ok_mem {id : EventType} {s : String} (h : GetEvtString id = .ok s) :
    (id, s) ∈ evtStrMap := by
  cases hl : evtStrMap.lookup id with
  | none => rw [GetEvtString_of_lookup_none hl] at h; cases h
  | some t =>
    rw [GetEvtString_of_lookup_some hl] at h
    cases h
    exact mem_of_lookup_eq_some hl

/-- Two entries of a table whose values are pairwise distinct have the same
key as soon as they have the same value. -/
theorem key_eq_of_value_eq {m : List (EventType × String)} (hm : (m.map Prod.snd).Nodup)
    {a b : EventType} {s : String} (ha : (a, s) ∈ m) (hb : (b, s) ∈ m) : a = b := by
  have hinj := List.inj_on_of_nodup_map hm ha hb rfl
  exact congrArg Prod.fst hinj

/-- C11 (amended): the offset of `FIVE_GMM_STATUS_EVENT`, declared on line 107
as `UE_5GS_MOBILITY_MANAGEMENT_EVENTS + 14 + iota` with `iota = 22`, is 100,
the NAS message type of 5GMM STATUS; the offset 86 written in the inline
comment is that of `AUTH_REQUEST_EVENT`. -/
theorem five_gmm_status_offset :
    FIVE_GMM_STATUS_EVENT - N1_EVENT = 100 ∧
    FIVE_GMM_STATUS_EVENT = N1_EVENT + 64 + 14 + 22 ∧
    (evalConstBlock mobilityLines)[22]? = some FIVE_GMM_STATUS_EVENT ∧
    AUTH_REQUEST_EVENT - N1_EVENT = 86 ∧
    FIVE_GMM_STATUS_EVENT ≠ AUTH_REQUEST_EVENT := by
  decide!

/-- C11 as stated fails: the offset of `FIVE_GMM_STATUS_EVENT` from `N1_EVENT`
is not the 86 of the inline comment. -/
theorem five_gmm_status_offset_ne_86 : ¬ (FIVE_GMM_STATUS_EVENT - N1_EVENT = 86) := by
  decide!

/-- C12 (monotone assignment): in every const block of events the values grow
strictly in declaration order (the blank first line of the 5GMM and 5GSM
blocks included), and each line that replaces the expression starts above the
constant declared just before it. -/
theorem blocks_strictly_increasing :
    (evalConstBlock commonLines).Pairwise (fun a b => a < b) ∧
    (evalConstBlock profileSimueLines).Pairwise (fun a b => a < b) ∧
    (evalConstBlock simueRealueLines).Pairwise (fun a b => a < b) ∧
    (evalConstBlock uuLines).Pairwise (fun a b => a < b) ∧
    (evalConstBlock mobilityLines).Pairwise (fun a b => a < b) ∧
    (evalConstBlock sessionLines).Pairwise (fun a b => a < b) ∧
    (evalConstBlock n2Lines).Pairwise (fun a b => a < b) ∧
    (evalConstBlock n3Lines).Pairwise (fun a b => a < b) ∧
    commonEvents.Pairwise (fun a b => a < b) ∧
    profileSimueEvents.Pairwise (fun a b => a < b) ∧
    simueRealueEvents.Pairwise (fun a b => a < b) ∧
    uuEvents.Pairwise (fun a b => a < b) ∧
    mobilityEvents.Pairwise (fun a b => a < b) ∧
    sessionEvents.Pairwise (fun a b => a < b) ∧
    n2Events.Pairwise (fun a b => a < b) ∧
    n3Events.Pairwise (fun a b => a < b) ∧
    DEREG_ACCEPT_UE_TERM_EVENT < SERVICE_REQUEST_EVENT ∧
    SERVICE_ACCEPT_EVENT < AUTH_REQUEST_EVENT ∧
    SEC_MOD_REJECT_EVENT < FIVE_GMM_STATUS_EVENT ∧
    PDU_SESS_EST_REJECT_EVENT < PDU_SESS_AUTH_COMMAND_EVENT ∧
    PDU_SESS_AUTH_RESULT_EVENT < PDU_SESS_MOD_REQUEST_EVENT ∧
    PDU_SESS_MOD_CMD_REJECT_EVENT < PDU_SESS_REL_REQUEST_EVENT ∧
    PDU_SESS_REL_COMPLETE_EVENT < FIVEGSM_STATUS_EVENT := by
  decide!

/-- C13 (fatal diagnostic): when the resolver takes the fatal branch for an
id, the arguments handed to the fatal logger are the fixed text
"Invaid Event ID:" followed by that same id, unmodified. -/
theorem fatal_reports_id (id : EventType) (e : FatalLog) (h : GetEvtString id = .error e) :
    e = ⟨"Invaid Event ID:", id⟩ ∧ e.text = "Invaid Event ID:" ∧ e.id = id := by
  cases hl : evtStrMap.lookup id with
  | none =>
    rw [GetEvtString_of_lookup_none hl] at h
    cases h
    exact ⟨rfl, rfl, rfl⟩
  | some s => rw [GetEvtString_of_lookup_some hl] at h; cases h

theorem fatal_reports_id_witness :
    GetEvtString 0x7000000 = .error ⟨"Invaid Event ID:", 0x7000000⟩ ∧
      (⟨"Invaid Event ID:", 0x7000000⟩ : FatalLog).id = 0x7000000 :=
  ⟨rfl, (fatal_reports_id 0x7000000 ⟨"Invaid Event ID:", 0x7000000⟩ rfl).2.2⟩

/-- C14 (name injectivity): on the event constants the resolver is injective:
equal results force equal ids, and distinct ids get distinct display names
(it is enough that one of the two ids is an event constant). -/
theorem names_injective (a b : EventType) (ha : a ∈ eventConstants) :
    (GetEvtString a = GetEvtString b → a = b) ∧
      (a ≠ b → GetEvtString a ≠ GetEvtString b) := by
  have key : GetEvtString a = GetEvtString b → a = b := by
    intro h
    rw [← evtStrMap_keys] at ha
    cases hl : evtStrMap.lookup a with
    | none => exact absurd ha ((lookup_eq_none_iff_not_key evtStrMap a).1 hl)
    | some s =>
      have hsa := GetEvtString_of_lookup_some hl
      have hsb : GetEvtString b = .ok s := by rw [← h, hsa]
      exact key_eq_of_value_eq evtStrMap_values_nodup (mem_of_lookup_eq_some hl)
        (GetEvtString_ok_mem hsb)
  exact ⟨key, fun hne h => hne (key h)⟩

theorem names_injective_witness :
    DL_UE_DATA_TRANSFER_EVENT ∈ eventConstants ∧
      DL_UE_DATA_TRANSPORT_EVENT ∈ eventConstants ∧
      GetEvtString DL_UE_DATA_TRANSFER_EVENT ≠ GetEvtString DL_UE_DATA_TRANSPORT_EVENT ∧
      GetEvtString DL_UE_DATA_TRANSFER_EVENT = .ok "DL-UE-DATA-TRANSFER-EVENT" ∧
      GetEvtString DL_UE_DATA_TRANSPORT_EVENT = .ok "DL-UE-DATA-TRANSPORT-EVENT" :=
  ⟨by decide!, by decide!,
    (names_injective DL_UE_DATA_TRANSFER_EVENT DL_UE_DATA_TRANSPORT_EVENT (by decide!)).2
      (by decide!), rfl, rfl⟩

/-- C15 (N1 sub-ranges): a 5GMM event constant has its offset from `N1_EVENT`
strictly between 64 and 192, stays below the 5GSM sub-range base and is no
5GSM constant; a 5GSM event constant has its offset strictly between 192 and
256; so every N1 event ordinal fits in one octet. -/
theorem n1_sub_ranges (v : EventType) :
    (v ∈ mobilityEvents → 64 < v - N1_EVENT ∧ v - N1_EVENT < 192 ∧
      v < UE_5GS_SESSION_MANAGEMENT_EVENTS ∧ v ∉ sessionEvents) ∧
    (v ∈ sessionEvents → 192 < v - N1_EVENT ∧ v - N1_EVENT < 256 ∧ v ∉ mobilityEvents) ∧
    (v ∈ mobilityEvents ++ sessionEvents → N1_EVENT < v ∧ v - N1_EVENT < 2 ^ 8) := by
  refine ⟨?_, ?_, ?_⟩
  · revert v; decide!
  · revert v; decide!
  · revert v; decide!

theorem n1_sub_ranges_witness :
    (64 < DL_NAS_TRANSPORT_EVENT - N1_EVENT ∧ DL_NAS_TRANSPORT_EVENT - N1_EVENT < 192 ∧
      DL_NAS_TRANSPORT_EVENT < UE_5GS_SESSION_MANAGEMENT_EVENTS ∧
      DL_NAS_TRANSPORT_EVENT ∉ sessionEvents) ∧
    (192 < FIVEGSM_STATUS_EVENT - N1_EVENT ∧ FIVEGSM_STATUS_EVENT - N1_EVENT < 256 ∧
      FIVEGSM_STATUS_EVENT ∉ mobilityEvents) ∧
    (N1_EVENT < PDU_SESS_EST_REQUEST_EVENT ∧ PDU_SESS_EST_REQUEST_EVENT - N1_EVENT < 2 ^ 8) :=
  ⟨(n1_sub_ranges DL_NAS_TRANSPORT_EVENT).1 (by decide!),
    (n1_sub_ranges FIVEGSM_STATUS_EVENT).2.1 (by decide!),
    (n1_sub_ranges PDU_SESS_EST_REQUEST_EVENT).2.2 (by decide!)⟩

/-- C16 (naming convention): every string the resolver can return is a string
of `evtStrMap`, made of upper-case ASCII letters and hyphens only, ending with
"-EVENT" and free of whitespace. -/
theorem names_are_tokens (id : EventType) (s : String) (h : GetEvtString id = .ok s) :
    s ∈ evtStrMap.map Prod.snd ∧ s.toList.all isNameChar = true ∧
      hasEventSuffix s = true ∧ s.toList.any Char.isWhitespace = false ∧
      isEventToken s = true := by
  have hmem := GetEvtString_ok_mem h
  have htok : isEventToken s = true := evtStrMap_values_token _ hmem
  have hs : s ∈ evtStrMap.map Prod.snd := List.mem_map.2 ⟨(id, s), hmem, rfl⟩
  simp only [isEventToken, Bool.and_eq_true, Bool.not_eq_true_eq_eq_false] at htok
  exact ⟨hs, htok.1.1, htok.1.2, htok.2, evtStrMap_values_token _ hmem⟩

theorem names_are_tokens_witness :
    "PDU-SESSION-MODIFICATION-COMMAND-REJECT-EVENT" ∈ evtStrMap.map Prod.snd ∧
      "PDU-SESSION-MODIFICATION-COMMAND-REJECT-EVENT".toList.all isNameChar = true ∧
      hasEventSuffix "PDU-SESSION-MODIFICATION-COMMAND-REJECT-EVENT" = true ∧
      "PDU-SESSION-MODIFICATION-COMMAND-REJECT-EVENT".toList.any Char.isWhitespace = false ∧
      isEventToken "PDU-SESSION-MODIFICATION-COMMAND-REJECT-EVENT" = true :=
  names_are_tokens PDU_SESS_MOD_CMD_REJECT_EVENT
    "PDU-SESSION-MODIFICATION-COMMAND-REJECT-EVENT" rfl

end common
